import Mathlib

/-!
Verification of the go-goodwe inverter telemetry client.

Shallow embedding of the protocol core of `src/main.go`:
the CRC16 checksum engine, the fixed-point field decoder
(`Parse16` / `Parse32` / `pow10` / `round`), the frame parser
(`parsePayload`), the response validation of a single exchange
(`getData`), and the retry driver (`GetData`).

Conventions of the embedding:
* Go `float64` arithmetic is modelled exactly over `ℚ`; every float
  operation the embedded code performs (multiplication, division,
  addition of `0.5`, conversion to `int64`) is represented by the
  corresponding exact rational operation.
* Go byte / integer values are `ℕ` (bytes are values `< 256`), Go `int`
  values that may be negative are `ℤ`.
* I/O-free pure functions become Lean functions; the network exchange is
  modelled by passing the received datagram (resp. the stream of
  per-attempt outcomes) as an explicit argument.
-/

set_option maxRecDepth 10000

namespace goodwe

/-- Go `int64(f)` conversion applied to a float value: truncation toward
zero, modelled on `ℚ`. -/
def trunc64 (q : ℚ) : ℤ :=
  if 0 ≤ q then q.floor else -((-q).floor)

/-- The `v /= 10` loop in the negative-exponent branch of `pow10`
(main.go lines 368-373): starting from `1.0`, divide by `10` a number of
times. -/
def pow10Loop : ℕ → ℚ
  | 0 => 1
  | n + 1 => pow10Loop n / 10

/-- Embedding of `pow10` (main.go lines 362-375).  The positive branch of the Go code
is `float64(int64(10) ^ int64(exp))`; in Go `^` on integers is bitwise
XOR, not exponentiation, so that branch computes `10 XOR exp`. -/
def pow10 (exp : ℤ) : ℚ :=
  if exp = 0 then 1
  else if 0 < exp then ((Nat.xor 10 exp.toNat : ℕ) : ℚ)
  else pow10Loop (-exp).toNat

/-- Embedding of `round` (main.go lines 417-420):
`scale := pow10(places); return float64(int64(f*scale+0.5)) / scale`. -/
def round (f : ℚ) (places : ℤ) : ℚ :=
  let scale := pow10 places
  ((trunc64 (f * scale + 0.5) : ℤ) : ℚ) / scale

/-- Embedding of `binary.BigEndian.Uint16` applied to a 2-byte slice. -/
def uint16be (b : List ℕ) : ℕ :=
  256 * b.getD 0 0 + b.getD 1 0

/-- Embedding of `binary.BigEndian.Uint32` applied to a 4-byte slice. -/
def uint32be (b : List ℕ) : ℕ :=
  16777216 * b.getD 0 0 + 65536 * b.getD 1 0 + 256 * b.getD 2 0 + b.getD 3 0

/-- Embedding of `Parse16` (main.go lines 354-356):
`round(float64(binary.BigEndian.Uint16(b))*pow10(exp), -exp)`. -/
def Parse16 (b : List ℕ) (exp : ℤ) : ℚ :=
  round ((uint16be b : ℚ) * pow10 exp) (-exp)

/-- Embedding of `Parse32` (main.go lines 358-360):
`round(float64(binary.BigEndian.Uint32(b))*pow10(exp), -exp)`. -/
def Parse32 (b : List ℕ) (exp : ℤ) : ℚ :=
  round ((uint32be b : ℚ) * pow10 exp) (-exp)

/-- Go slice expression `data[i : i+n]`. -/
def slice (l : List ℕ) (i n : ℕ) : List ℕ :=
  (l.drop i).take n

/-- The `Data` struct of main.go (lines 32-46) restricted to the decoded
numeric telemetry fields; the `Sample` wall-clock timestamp is outside
the embedding.  `Status` is the Go `GoodWeStatus` (an `int`). -/
structure Data where
  VoltageDC : List ℚ
  CurrentDC : List ℚ
  PowerDC : List ℚ
  VoltageAC : List ℚ
  CurrentAC : List ℚ
  FrequencyAC : List ℚ
  PowerAC : ℚ
  Status : ℤ
  Temperature : ℚ
  YieldToday : ℚ
  YieldTotal : ℚ
  WorkingHours : ℚ
deriving DecidableEq

/-- DC voltage of channel `i` (main.go line 316): `Parse16(data[vi:vi+2], -1)`
with `vi = 9 + i*4`. -/
def dcVoltage (data : List ℕ) (i : ℕ) : ℚ :=
  Parse16 (slice data (9 + i * 4) 2) (-1)

/-- DC current of channel `i` (main.go line 317): `Parse16(data[vi+2:vi+4], -1)`. -/
def dcCurrent (data : List ℕ) (i : ℕ) : ℚ :=
  Parse16 (slice data (9 + i * 4 + 2) 2) (-1)

/-- Raw (pre-suppression) AC voltage of phase `i` (main.go line 327). -/
def acVoltage (data : List ℕ) (i : ℕ) : ℚ :=
  Parse16 (slice data (39 + i * 2) 2) (-1)

/-- Raw AC current of phase `i` (main.go line 328). -/
def acCurrent (data : List ℕ) (i : ℕ) : ℚ :=
  Parse16 (slice data (45 + i * 2) 2) (-1)

/-- Raw AC frequency of phase `i` (main.go line 329). -/
def acFrequency (data : List ℕ) (i : ℕ) : ℚ :=
  Parse16 (slice data (51 + i * 2) 2) (-2)

/-- One iteration of the AC loop of `parsePayload` (main.go lines
322-338), producing the `(voltage, current, frequency)` triple after the
sentinel-suppression test `if i > 0 && v == 6553.5`. -/
def acPhase (data : List ℕ) (i : ℕ) : ℚ × ℚ × ℚ :=
  let v := acVoltage data i
  let c := acCurrent data i
  let f := acFrequency data i
  if 0 < i ∧ v = 6553.5 then (0, 0, 0) else (v, c, f)

/-- Embedding of `parsePayload` (main.go lines 310-352).  The Go code fills the struct
field by field and finally rejects the frame when
`d.YieldToday > 6500 || d.YieldTotal > 4_000_000`; since the struct is
discarded on rejection this is embedded as a guard around the record. -/
def parsePayload (data : List ℕ) : Option Data :=
  let yieldToday := Parse16 (slice data 91 2) (-1)
  let yieldTotal := Parse32 (slice data 93 4) 0
  if 6500 < yieldToday ∨ 4000000 < yieldTotal then
    none
  else
    some
      { VoltageDC := [dcVoltage data 0, dcVoltage data 1, dcVoltage data 2, dcVoltage data 3]
        CurrentDC := [dcCurrent data 0, dcCurrent data 1, dcCurrent data 2, dcCurrent data 3]
        PowerDC := [dcVoltage data 0 * dcCurrent data 0, dcVoltage data 1 * dcCurrent data 1,
          dcVoltage data 2 * dcCurrent data 2, dcVoltage data 3 * dcCurrent data 3]
        VoltageAC := [(acPhase data 0).1, (acPhase data 1).1, (acPhase data 2).1]
        CurrentAC := [(acPhase data 0).2.1, (acPhase data 1).2.1, (acPhase data 2).2.1]
        FrequencyAC := [(acPhase data 0).2.2, (acPhase data 1).2.2, (acPhase data 2).2.2]
        PowerAC := Parse16 (slice data 59 2) 0
        Status := trunc64 (Parse16 (slice data 61 2) 0)
        Temperature := Parse16 (slice data 85 2) (-1)
        YieldToday := yieldToday
        YieldTotal := yieldTotal
        WorkingHours := Parse16 (slice data 99 2) 0 }

/-- One bit-iteration of the CRC inner loop (main.go lines 426-432):
`if crc&1 != 0 { crc = (crc >> 1) ^ 0xA001 } else { crc >>= 1 }`. -/
def crcBitStep (crc : ℕ) : ℕ :=
  if crc % 2 ≠ 0 then Nat.xor (crc / 2) 0xA001 else crc / 2

/-- The 8-iteration inner `for` loop of `CRC16`. -/
def crcBitLoop : ℕ → ℕ → ℕ
  | crc, 0 => crc
  | crc, n + 1 => crcBitLoop (crcBitStep crc) n

/-- Embedding of `CRC16` (main.go lines 422-435), over a list of byte values:
register starts at `0xFFFF`; each byte is XORed in and run through the
8-bit inner loop; the result is emitted low byte first. -/
def CRC16 (data : List ℕ) : List ℕ :=
  let crc := data.foldl (fun crc b => crcBitLoop (Nat.xor crc b) 8) 0xFFFF
  [crc % 256, (crc / 256) % 256]

/-- Structural validation of one received datagram, `getData` main.go
lines 292-304: the size check `n != 153`, the header check
`buf[:2] == {0xAA, 0x55}` and the checksum check
`CRC16(buf[2:151]) == buf[151:]`; on success it yields the 149-byte
payload `buf[2:151]` that is handed to `parsePayload`. -/
def checkDatagram (buf : List ℕ) : Option (List ℕ) :=
  if buf.length ≠ 153 then none
  else if slice buf 0 2 ≠ [0xAA, 0x55] then none
  else if CRC16 (slice buf 2 149) ≠ buf.drop 151 then none
  else some (slice buf 2 149)

/-- Embedding of `getData` (main.go lines 266-308) after the network read: the
received datagram is validated and, when wellformed, parsed. -/
def getData (buf : List ℕ) : Option Data :=
  (checkDatagram buf).bind parsePayload

/-- The retry loop body of `GetData` (main.go lines 252-261), modelled
over the stream `exchange` of per-attempt outcomes: `exchange i` is the
result of the `i`-th call to `c.getData()`.  The second component of the
result counts how many attempts were performed. -/
def getDataLoop (exchange : ℕ → Option Data) : ℕ → ℕ → Option Data × ℕ
  | _, 0 => (none, 0)
  | i, n + 1 =>
    match exchange i with
    | some d => (some d, 1)
    | none =>
      let r := getDataLoop exchange (i + 1) n
      (r.1, r.2 + 1)

/-- Embedding of `GetData` (main.go lines 251-264): `for i := 0; i < retries; i++`
attempts the exchange, returning the first success; after the loop the
aggregate failure (`none`) is returned.  The `ℕ` component is the number
of attempts performed. -/
def GetData (retries : ℤ) (exchange : ℕ → Option Data) : Option Data × ℕ :=
  getDataLoop exchange 0 retries.toNat

/-! ## Evaluation lemmas for the fixed-point decoder -/

theorem trunc64_eq_floor (q : ℚ) (h : 0 ≤ q) : trunc64 q = ⌊q⌋ := by
  rw [trunc64, if_pos h]
  exact (Rat.floor_def' q).trans Rat.floor_def.symm

theorem trunc64_natCast_div (m k : ℕ) :
    trunc64 ((m : ℚ) / k) = ((m / k : ℕ) : ℤ) := by
  rw [trunc64_eq_floor _ (by positivity), Rat.floor_natCast_div_natCast,
    Int.ofNat_ediv]

theorem pow10_zero : pow10 0 = 1 := rfl

theorem pow10Loop_eval (n : ℕ) : pow10Loop n = 1 / 10 ^ n := by
  induction n with
  | zero => simp [pow10Loop]
  | succ k ih =>
    rw [pow10Loop, ih, pow_succ]
    ring

theorem pow10_one : pow10 1 = 11 := by
  rw [pow10, if_neg (by norm_num), if_pos (by norm_num)]
  norm_num [show Nat.xor 10 (Int.toNat 1) = 11 from by decide,
    show Nat.xor 10 1 = 11 from by decide]

theorem pow10_two : pow10 2 = 8 := by
  rw [pow10, if_neg (by norm_num), if_pos (by norm_num)]
  norm_num [show Nat.xor 10 (Int.toNat 2) = 8 from by decide,
    show Nat.xor 10 2 = 8 from by decide]

theorem pow10_neg_one : pow10 (-1) = 1 / 10 := by
  rw [pow10, if_neg (by norm_num), if_neg (by norm_num)]
  norm_num [pow10Loop_eval]

theorem pow10_neg_two : pow10 (-2) = 1 / 100 := by
  rw [pow10, if_neg (by norm_num), if_neg (by norm_num)]
  rw [show (-(-2 : ℤ)).toNat = 2 from rfl]
  norm_num [pow10Loop_eval]

theorem round_def (f : ℚ) (places : ℤ) :
    round f places = ((trunc64 (f * pow10 places + 0.5) : ℤ) : ℚ) / pow10 places :=
  rfl

/-- With exponent `0` the decoder returns the raw big-endian value:
the scale factor is `1` on both sides of `round`. -/
theorem Parse16_eval_zero (b : List ℕ) : Parse16 b 0 = (uint16be b : ℚ) := by
  rw [Parse16, round_def, neg_zero, pow10_zero]
  rw [show ((uint16be b : ℚ) * 1 * 1 + 0.5) = ((2 * uint16be b + 1 : ℕ) : ℚ) / ((2 : ℕ) : ℚ) by
    push_cast; ring_nf]
  rw [trunc64_natCast_div]
  rw [show (2 * uint16be b + 1) / 2 = uint16be b from by omega]
  push_cast
  ring

/-- With exponent `-1` the decoder divides the raw value by ten but then
"rounds" with the corrupted scale `pow10 1 = 11`, giving an elevenths
denominator. -/
theorem Parse16_eval_neg_one (b : List ℕ) :
    Parse16 b (-1) = (((11 * uint16be b + 5) / 10 : ℕ) : ℚ) / 11 := by
  rw [Parse16, round_def, neg_neg, pow10_neg_one, pow10_one]
  rw [show ((uint16be b : ℚ) * (1 / 10) * 11 + 0.5)
      = ((11 * uint16be b + 5 : ℕ) : ℚ) / ((10 : ℕ) : ℚ) by push_cast; ring_nf]
  rw [trunc64_natCast_div]
  simp only [Int.cast_natCast]

/-- With exponent `-2` the decoder divides by one hundred and "rounds"
with the corrupted scale `pow10 2 = 8`. -/
theorem Parse16_eval_neg_two (b : List ℕ) :
    Parse16 b (-2) = (((8 * uint16be b + 50) / 100 : ℕ) : ℚ) / 8 := by
  rw [Parse16, round_def, neg_neg, pow10_neg_two, pow10_two]
  rw [show ((uint16be b : ℚ) * (1 / 100) * 8 + 0.5)
      = ((8 * uint16be b + 50 : ℕ) : ℚ) / ((100 : ℕ) : ℚ) by push_cast; ring_nf]
  rw [trunc64_natCast_div]
  simp only [Int.cast_natCast]

/-- With exponent `1` the decoder multiplies the raw value by
`pow10 1 = 11` (instead of ten) before rounding back to tens. -/
theorem Parse16_eval_one (b : List ℕ) :
    Parse16 b 1 = (((11 * uint16be b + 5) / 10 : ℕ) : ℚ) * 10 := by
  rw [Parse16, round_def, pow10_one, pow10_neg_one]
  rw [show ((uint16be b : ℚ) * 11 * (1 / 10) + 0.5)
      = ((11 * uint16be b + 5 : ℕ) : ℚ) / ((10 : ℕ) : ℚ) by push_cast; ring_nf]
  rw [trunc64_natCast_div]
  simp only [Int.cast_natCast]
  rw [one_div, div_eq_mul_inv, inv_inv]

theorem Parse32_eval_zero (b : List ℕ) : Parse32 b 0 = (uint32be b : ℚ) := by
  rw [Parse32, round_def, neg_zero, pow10_zero]
  rw [show ((uint32be b : ℚ) * 1 * 1 + 0.5) = ((2 * uint32be b + 1 : ℕ) : ℚ) / ((2 : ℕ) : ℚ) by
    push_cast; ring_nf]
  rw [trunc64_natCast_div]
  rw [show (2 * uint32be b + 1) / 2 = uint32be b from by omega]
  push_cast
  ring

theorem Parse32_eval_one (b : List ℕ) :
    Parse32 b 1 = (((11 * uint32be b + 5) / 10 : ℕ) : ℚ) * 10 := by
  rw [Parse32, round_def, pow10_one, pow10_neg_one]
  rw [show ((uint32be b : ℚ) * 11 * (1 / 10) + 0.5)
      = ((11 * uint32be b + 5 : ℕ) : ℚ) / ((10 : ℕ) : ℚ) by push_cast; ring_nf]
  rw [trunc64_natCast_div]
  simp only [Int.cast_natCast]
  rw [one_div, div_eq_mul_inv, inv_inv]

/-- C1: the fixed-point decode vector.  The claim states
`decodeU16([0x09,0x29], -1) = 234.5` exactly; on the code,
`round` fetches its scale from `pow10(1)`, whose positive branch is the
Go expression `int64(10) ^ int64(exp)` — bitwise XOR, i.e. `11`, not
`10` — so the decoder actually returns `⌊2345/10*11 + 1/2⌋ / 11 =
2580/11 = 234.5454…`, not `234.5`.  The exponent-`0` half of the vector
does hold. -/
theorem C1_decode_vector :
    Parse16 [0x09, 0x29] (-1) = 2580 / 11 ∧ (2580 / 11 : ℚ) ≠ 234.5 ∧
    Parse16 [0x00, 0x00] 0 = 0 := by
  refine ⟨?_, by norm_num, ?_⟩
  · rw [Parse16_eval_neg_one, show uint16be [0x09, 0x29] = 2345 from by decide]
    norm_num
  · rw [Parse16_eval_zero, show uint16be [0x00, 0x00] = 0 from by decide]
    norm_num

/-- C3: positive-exponent scaling.  The claim states
`decodeU16(b, e) = raw * 10^e` for positive `e`; but `pow10 1 = 11`
(Go `10 ^ 1` is XOR), so `decodeU16([0x00,0x05], 1)` returns `60`
while the claimed value is `5 * 10 = 50` — and `decodeU32` fails the
same way on `[0,0,0,5]`. -/
theorem C3_positive_exponent :
    pow10 1 = 11 ∧
    Parse16 [0x00, 0x05] 1 = 60 ∧ (uint16be [0x00, 0x05] : ℚ) * 10 ^ (1 : ℕ) = 50 ∧
    Parse32 [0x00, 0x00, 0x00, 0x05] 1 = 60 ∧ (60 : ℚ) ≠ 50 := by
  refine ⟨pow10_one, ?_, ?_, ?_, by norm_num⟩
  · rw [Parse16_eval_one, show uint16be [0x00, 0x05] = 5 from by decide]
    norm_num
  · rw [show uint16be [0x00, 0x05] = 5 from by decide]
    norm_num
  · rw [Parse32_eval_one, show uint32be [0x00, 0x00, 0x00, 0x05] = 5 from by decide]
    norm_num

/-! ## C4: the CRC16 engine against the bit-serial CRC16/MODBUS reference -/

/-- Reference bit iteration, following the spec's words: "if the low bit
is set, shift right one bit and XOR with polynomial `0xA001`; otherwise
shift right one bit with no XOR". -/
def modbusStep (r : ℕ) : ℕ :=
  if r % 2 = 1 then Nat.xor (r >>> 1) 0xA001 else r >>> 1

/-- Reference per-byte transformation: "XOR [the input byte] into the low
byte of the register, then perform 8 iterations" of `modbusStep`. -/
def modbusByte (r b : ℕ) : ℕ :=
  modbusStep^[8] (Nat.xor r b)

/-- Reference register value: "initialize a 16-bit register to `0xFFFF`"
and consume the input bytes in order. -/
def modbusRegister (data : List ℕ) : ℕ :=
  data.foldl modbusByte 0xFFFF

theorem crcBitStep_eq_modbusStep (r : ℕ) : crcBitStep r = modbusStep r := by
  rw [crcBitStep, modbusStep]
  simp only [Nat.shiftRight_one]
  rcases Nat.mod_two_eq_zero_or_one r with h | h <;> simp [h]

theorem crcBitLoop_eq_iterate (n : ℕ) : ∀ r, crcBitLoop r n = modbusStep^[n] r := by
  induction n with
  | zero => intro r; rfl
  | succ k ih =>
    intro r
    rw [crcBitLoop, ih (crcBitStep r), crcBitStep_eq_modbusStep]
    exact (Function.iterate_succ_apply modbusStep k r).symm

/-- C4: CRC16 reference equality.  For every byte sequence the code's
`CRC16` equals the spec's bit-serial CRC16/MODBUS register, emitted as
exactly two bytes, low byte first then high byte.  (Determinism is
immediate: both sides are functions of the input list alone.) -/
theorem C4_crc16_reference :
    ∀ data : List ℕ,
      CRC16 data = [modbusRegister data % 256, modbusRegister data / 256 % 256] ∧
      (CRC16 data).length = 2 := by
  intro data
  have hfun : (fun crc b => crcBitLoop (Nat.xor crc b) 8) = modbusByte := by
    funext r b
    rw [modbusByte, crcBitLoop_eq_iterate]
  constructor
  · simp only [CRC16, modbusRegister, hfun]
  · simp only [CRC16, List.length_cons, List.length_nil]

/-! ## C2: the sentinel-suppression rule on a concrete payload -/

/-- A 149-byte payload that is all zeroes except that the AC phase-1
voltage field (bytes 41-42, offset `39 + 1*2`) holds the raw sentinel
`0xFFFF`. -/
def cexC2 : List ℕ :=
  ((List.replicate 149 0).set 41 0xFF).set 42 0xFF

theorem uint16be_zeros : uint16be [0, 0] = 0 := by decide

/-- C2: on the code the sentinel test `v == 6553.5` never fires, because
`Parse16` of raw `0xFFFF` at exponent `-1` is `72089/11 = 6553.5454…`,
not `6553.5` (the `round` scale is the corrupted `pow10 1 = 11`).  The
payload `cexC2` is accepted, its phase-1 voltage field holds raw
`0xFFFF`, and the decoded phase-1 voltage is `72089/11 ≠ 0`: the claimed
forcing of phase 1 to zero does not happen. -/
theorem C2_sentinel_not_suppressed :
    cexC2.length = 149 ∧
    uint16be (slice cexC2 (39 + 1 * 2) 2) = 0xFFFF ∧
    Option.map Data.VoltageAC (parsePayload cexC2) = some [0, 72089 / 11, 0] ∧
    (72089 / 11 : ℚ) ≠ 0 ∧ (72089 / 11 : ℚ) ≠ 6553.5 := by
  refine ⟨by decide, by decide, ?_, by norm_num, by norm_num⟩
  have hv0 : acVoltage cexC2 0 = 0 := by
    rw [acVoltage, show slice cexC2 (39 + 0 * 2) 2 = [0, 0] from by decide,
      Parse16_eval_neg_one, uint16be_zeros]
    norm_num
  have hv1 : acVoltage cexC2 1 = 72089 / 11 := by
    rw [acVoltage, show slice cexC2 (39 + 1 * 2) 2 = [0xFF, 0xFF] from by decide,
      Parse16_eval_neg_one, show uint16be [0xFF, 0xFF] = 65535 from by decide]
    norm_num
  have hv2 : acVoltage cexC2 2 = 0 := by
    rw [acVoltage, show slice cexC2 (39 + 2 * 2) 2 = [0, 0] from by decide,
      Parse16_eval_neg_one, uint16be_zeros]
    norm_num
  have hguard : ¬(6500 < Parse16 (slice cexC2 91 2) (-1) ∨
      4000000 < Parse32 (slice cexC2 93 4) 0) := by
    rw [show slice cexC2 91 2 = [0, 0] from by decide,
      show slice cexC2 93 4 = [0, 0, 0, 0] from by decide,
      Parse16_eval_neg_one, Parse32_eval_zero, uint16be_zeros,
      show uint32be [0, 0, 0, 0] = 0 from by decide]
    norm_num
  simp only [parsePayload]
  rw [if_neg hguard]
  simp only [Option.map_some, acPhase, hv0, hv1, hv2]
  norm_num

/-! ## C5: the plausibility boundary -/

/-- The only rejection in `parsePayload` is the yield-plausibility test
(main.go lines 347-349). -/
theorem parsePayload_eq_none_iff (data : List ℕ) :
    parsePayload data = none ↔
      6500 < Parse16 (slice data 91 2) (-1) ∨ 4000000 < Parse32 (slice data 93 4) 0 := by
  by_cases h : 6500 < Parse16 (slice data 91 2) (-1) ∨ 4000000 < Parse32 (slice data 93 4) 0
  · simp only [parsePayload]
    rw [if_pos h]
    simp [h]
  · simp only [parsePayload]
    rw [if_neg h]
    simp [h]

/-- A 149-byte payload whose yield-total field (u32 at offset 93) holds
the raw value `4000001 = 0x003D0901`; everything else is zero. -/
def pRej : List ℕ :=
  (((List.replicate 149 0).set 94 0x3D).set 95 0x09).set 96 0x01

/-- Like `pRej` but with yield-total raw value `4000000 = 0x003D0900`. -/
def pAcc : List ℕ :=
  ((List.replicate 149 0).set 94 0x3D).set 95 0x09

/-- C5: the parser rejects exactly when the decoded yield-today exceeds
6500 or the decoded yield-total exceeds 4,000,000; the concrete payload
decoding to yield-total 4,000,001 is rejected while the one decoding to
exactly 4,000,000 is accepted. -/
theorem C5_plausibility_boundary :
    (∀ data : List ℕ, data.length = 149 →
      (parsePayload data = none ↔
        6500 < Parse16 (slice data 91 2) (-1) ∨ 4000000 < Parse32 (slice data 93 4) 0)) ∧
    Parse32 (slice pRej 93 4) 0 = 4000001 ∧ parsePayload pRej = none ∧
    Parse32 (slice pAcc 93 4) 0 = 4000000 ∧ (parsePayload pAcc).isSome = true := by
  refine ⟨fun data _ => parsePayload_eq_none_iff data, ?_, ?_, ?_, ?_⟩
  · rw [show slice pRej 93 4 = [0x00, 0x3D, 0x09, 0x01] from by decide, Parse32_eval_zero]
    norm_num [show uint32be [0x00, 0x3D, 0x09, 0x01] = 4000001 from by decide]
  · rw [parsePayload_eq_none_iff]
    right
    rw [show slice pRej 93 4 = [0x00, 0x3D, 0x09, 0x01] from by decide, Parse32_eval_zero]
    norm_num [show uint32be [0x00, 0x3D, 0x09, 0x01] = 4000001 from by decide]
  · rw [show slice pAcc 93 4 = [0x00, 0x3D, 0x09, 0x00] from by decide, Parse32_eval_zero]
    norm_num [show uint32be [0x00, 0x3D, 0x09, 0x00] = 4000000 from by decide]
  · rw [Option.isSome_iff_ne_none, Ne, parsePayload_eq_none_iff]
    rw [show slice pAcc 91 2 = [0, 0] from by decide,
      show slice pAcc 93 4 = [0x00, 0x3D, 0x09, 0x00] from by decide,
      Parse16_eval_neg_one, Parse32_eval_zero, uint16be_zeros]
    norm_num [show uint32be [0x00, 0x3D, 0x09, 0x00] = 4000000 from by decide]

/-- Witness for C5: the quantified conjunct applied at the concrete
accepted payload. -/
theorem C5_plausibility_boundary_witness :
    pAcc.length = 149 ∧
    (parsePayload pAcc = none ↔
      6500 < Parse16 (slice pAcc 91 2) (-1) ∨ 4000000 < Parse32 (slice pAcc 93 4) 0) :=
  ⟨by decide, C5_plausibility_boundary.1 pAcc (by decide)⟩

/-! ## C8: the status field is stored raw and never causes rejection -/

theorem trunc64_natCast (n : ℕ) : trunc64 ((n : ℚ)) = n := by
  rw [trunc64_eq_floor _ (by positivity)]
  exact Int.floor_natCast n

/-- Setting a byte strictly below the start of a slice leaves the slice
unchanged. -/
theorem slice_set_of_lt (l : List ℕ) (k x i n : ℕ) (hk : k < i) :
    slice (l.set k x) i n = slice l i n := by
  apply List.ext_getElem?
  intro m
  simp only [slice, List.getElem?_take, List.getElem?_drop]
  split
  · rw [List.getElem?_set, if_neg (by omega)]
  · rfl

/-- C8: every accepted payload stores the raw big-endian u16 at offset 61
as its status, and overwriting the two status bytes with any values
never turns an accepted payload into a rejected one. -/
theorem C8_status_preserved :
    ∀ (data : List ℕ) (d : Data), parsePayload data = some d →
      d.Status = (uint16be (slice data 61 2) : ℤ) ∧
      ∀ x y : ℕ, (parsePayload ((data.set 61 x).set 62 y)).isSome = true := by
  intro data d h
  have hacc : ¬(6500 < Parse16 (slice data 91 2) (-1) ∨
      4000000 < Parse32 (slice data 93 4) 0) := by
    intro hc
    rw [(parsePayload_eq_none_iff data).2 hc] at h
    exact Option.noConfusion h
  constructor
  · simp only [parsePayload] at h
    rw [if_neg hacc] at h
    rw [← Option.some.inj h]
    show trunc64 (Parse16 (slice data 61 2) 0) = (uint16be (slice data 61 2) : ℤ)
    rw [Parse16_eval_zero, trunc64_natCast]
  · intro x y
    rw [Option.isSome_iff_ne_none, Ne, parsePayload_eq_none_iff]
    rw [slice_set_of_lt _ 62 _ _ _ (by norm_num), slice_set_of_lt _ 61 _ _ _ (by norm_num),
      slice_set_of_lt _ 62 _ _ _ (by norm_num), slice_set_of_lt _ 61 _ _ _ (by norm_num)]
    exact hacc

/-- The snapshot decoded from the all-zero 149-byte payload. -/
def zeroData : Data :=
  { VoltageDC := [0, 0, 0, 0]
    CurrentDC := [0, 0, 0, 0]
    PowerDC := [0, 0, 0, 0]
    VoltageAC := [0, 0, 0]
    CurrentAC := [0, 0, 0]
    FrequencyAC := [0, 0, 0]
    PowerAC := 0
    Status := 0
    Temperature := 0
    YieldToday := 0
    YieldTotal := 0
    WorkingHours := 0 }

theorem slice_replicate_zero (i n : ℕ) (h : i + n ≤ 149) :
    slice (List.replicate 149 0) i n = List.replicate n (0 : ℕ) := by
  rw [slice, List.drop_replicate, List.take_replicate]
  congr 1
  omega

theorem Parse16_zeros_neg_one : Parse16 [0, 0] (-1) = 0 := by
  rw [Parse16_eval_neg_one, uint16be_zeros]
  norm_num

theorem Parse16_zeros_neg_two : Parse16 [0, 0] (-2) = 0 := by
  rw [Parse16_eval_neg_two, uint16be_zeros]
  norm_num

theorem Parse16_zeros_zero : Parse16 [0, 0] 0 = 0 := by
  rw [Parse16_eval_zero, uint16be_zeros]
  norm_num

theorem Parse32_zeros_zero : Parse32 [0, 0, 0, 0] 0 = 0 := by
  rw [Parse32_eval_zero, show uint32be [0, 0, 0, 0] = 0 from by decide]
  norm_num

/-- The all-zero payload decodes to `zeroData`. -/
theorem parsePayload_replicate_zero :
    parsePayload (List.replicate 149 0) = some zeroData := by
  simp only [parsePayload, dcVoltage, dcCurrent, acPhase, acVoltage, acCurrent, acFrequency]
  rw [slice_replicate_zero 91 2 (by norm_num), slice_replicate_zero 93 4 (by norm_num),
    slice_replicate_zero (9 + 0 * 4) 2 (by norm_num),
    slice_replicate_zero (9 + 0 * 4 + 2) 2 (by norm_num),
    slice_replicate_zero (9 + 1 * 4) 2 (by norm_num),
    slice_replicate_zero (9 + 1 * 4 + 2) 2 (by norm_num),
    slice_replicate_zero (9 + 2 * 4) 2 (by norm_num),
    slice_replicate_zero (9 + 2 * 4 + 2) 2 (by norm_num),
    slice_replicate_zero (9 + 3 * 4) 2 (by norm_num),
    slice_replicate_zero (9 + 3 * 4 + 2) 2 (by norm_num),
    slice_replicate_zero (39 + 0 * 2) 2 (by norm_num),
    slice_replicate_zero (39 + 1 * 2) 2 (by norm_num),
    slice_replicate_zero (39 + 2 * 2) 2 (by norm_num),
    slice_replicate_zero (45 + 0 * 2) 2 (by norm_num),
    slice_replicate_zero (45 + 1 * 2) 2 (by norm_num),
    slice_replicate_zero (45 + 2 * 2) 2 (by norm_num),
    slice_replicate_zero (51 + 0 * 2) 2 (by norm_num),
    slice_replicate_zero (51 + 1 * 2) 2 (by norm_num),
    slice_replicate_zero (51 + 2 * 2) 2 (by norm_num),
    slice_replicate_zero 59 2 (by norm_num), slice_replicate_zero 61 2 (by norm_num),
    slice_replicate_zero 85 2 (by norm_num), slice_replicate_zero 99 2 (by norm_num)]
  simp only [show List.replicate 2 (0 : ℕ) = [0, 0] from rfl,
    show List.replicate 4 (0 : ℕ) = [0, 0, 0, 0] from rfl,
    Parse16_zeros_neg_one, Parse16_zeros_neg_two, Parse16_zeros_zero, Parse32_zeros_zero,
    ite_self, mul_zero]
  rw [if_neg (by norm_num)]
  rw [show trunc64 0 = 0 from by rw [trunc64_eq_floor 0 le_rfl]; norm_num]
  rfl

/-- Witness for C8: the all-zero payload is accepted, its status equals
the raw u16 at offset 61, and overwriting the status bytes keeps it
accepted. -/
theorem C8_status_preserved_witness :
    parsePayload (List.replicate 149 0) = some zeroData ∧
    zeroData.Status = (uint16be (slice (List.replicate 149 0) 61 2) : ℤ) ∧
    (parsePayload (((List.replicate 149 0).set 61 3).set 62 7)).isSome = true := by
  have h := C8_status_preserved (List.replicate 149 0) zeroData parsePayload_replicate_zero
  exact ⟨parsePayload_replicate_zero, h.1, h.2 3 7⟩

/-! ## C9: the parser reads only the first 101 bytes -/

/-- Two lists agreeing below `i + n` have equal `(i, n)` slices. -/
theorem slice_congr (l l' : List ℕ) (i n : ℕ)
    (h : ∀ m, m < i + n → l[m]? = l'[m]?) : slice l i n = slice l' i n := by
  apply List.ext_getElem?
  intro m
  simp only [slice, List.getElem?_take, List.getElem?_drop]
  split
  · exact h (i + m) (by omega)
  · rfl

/-- C9: on 149-byte payloads the parse result depends only on bytes 0-100
(the last field read spans offsets 99-100); bytes 101-148 never influence
the snapshot. -/
theorem C9_reads_first_101_bytes :
    ∀ data data' : List ℕ, data.length = 149 → data'.length = 149 →
      (∀ m, m < 101 → data[m]? = data'[m]?) →
      parsePayload data = parsePayload data' := by
  intro data data' _ _ h
  have hs : ∀ i n, i + n ≤ 101 → slice data i n = slice data' i n :=
    fun i n hin => slice_congr data data' i n (fun m hm => h m (by omega))
  simp only [parsePayload, dcVoltage, dcCurrent, acPhase, acVoltage, acCurrent, acFrequency]
  rw [hs 91 2 (by norm_num), hs 93 4 (by norm_num),
    hs (9 + 0 * 4) 2 (by norm_num), hs (9 + 0 * 4 + 2) 2 (by norm_num),
    hs (9 + 1 * 4) 2 (by norm_num), hs (9 + 1 * 4 + 2) 2 (by norm_num),
    hs (9 + 2 * 4) 2 (by norm_num), hs (9 + 2 * 4 + 2) 2 (by norm_num),
    hs (9 + 3 * 4) 2 (by norm_num), hs (9 + 3 * 4 + 2) 2 (by norm_num),
    hs (39 + 0 * 2) 2 (by norm_num), hs (39 + 1 * 2) 2 (by norm_num),
    hs (39 + 2 * 2) 2 (by norm_num), hs (45 + 0 * 2) 2 (by norm_num),
    hs (45 + 1 * 2) 2 (by norm_num), hs (45 + 2 * 2) 2 (by norm_num),
    hs (51 + 0 * 2) 2 (by norm_num), hs (51 + 1 * 2) 2 (by norm_num),
    hs (51 + 2 * 2) 2 (by norm_num), hs 59 2 (by norm_num), hs 61 2 (by norm_num),
    hs 85 2 (by norm_num), hs 99 2 (by norm_num)]

/-- Witness for C9: changing byte 120 of the all-zero payload does not
change the parse result. -/
theorem C9_reads_first_101_bytes_witness :
    parsePayload (List.replicate 149 0) = parsePayload ((List.replicate 149 0).set 120 7) :=
  C9_reads_first_101_bytes (List.replicate 149 0) ((List.replicate 149 0).set 120 7)
    (by decide) (by decide) (by decide)

/-! ## C7: acceptance condition of a single exchange -/

theorem checkDatagram_some_iff (buf p : List ℕ) :
    checkDatagram buf = some p ↔
      buf.length = 153 ∧ slice buf 0 2 = [0xAA, 0x55] ∧
        CRC16 (slice buf 2 149) = buf.drop 151 ∧ p = slice buf 2 149 := by
  rw [checkDatagram]
  split_ifs with h1 h2 h3
  · simp [h1]
  · simp [h2]
  · simp only [not_not] at h1
    simp [h1, h3]
  · simp only [not_not] at h1 h2 h3
    simp [h1, h2, h3, eq_comm]

/-- C7: the payload is handed to the frame parser exactly when the
datagram is 153 bytes long, starts with the `0xAA 0x55` header, and its
trailing two bytes equal the CRC16 recomputed over the 149 payload
bytes; when any of the checks fails the attempt produces no snapshot. -/
theorem C7_response_acceptance :
    ∀ buf : List ℕ,
      (∀ p, checkDatagram buf = some p ↔
        buf.length = 153 ∧ slice buf 0 2 = [0xAA, 0x55] ∧
          CRC16 (slice buf 2 149) = buf.drop 151 ∧ p = slice buf 2 149) ∧
      (¬(buf.length = 153 ∧ slice buf 0 2 = [0xAA, 0x55] ∧
          CRC16 (slice buf 2 149) = buf.drop 151) → getData buf = none) := by
  intro buf
  refine ⟨fun p => checkDatagram_some_iff buf p, fun hn => ?_⟩
  rw [getData]
  cases hc : checkDatagram buf with
  | none => rfl
  | some p =>
    have := (checkDatagram_some_iff buf p).1 hc
    exact absurd ⟨this.1, this.2.1, this.2.2.1⟩ hn

/-- Witness for C7: a two-byte datagram fails the checks and yields no
snapshot. -/
theorem C7_response_acceptance_witness :
    (checkDatagram [0xAA, 0x55] = some [] ↔
      ([0xAA, 0x55] : List ℕ).length = 153 ∧ slice [0xAA, 0x55] 0 2 = [0xAA, 0x55] ∧
        CRC16 (slice [0xAA, 0x55] 2 149) = ([0xAA, 0x55] : List ℕ).drop 151 ∧
        ([] : List ℕ) = slice [0xAA, 0x55] 2 149) ∧
    getData [0xAA, 0x55] = none := by
  have h := C7_response_acceptance [0xAA, 0x55]
  exact ⟨h.1 [], h.2 (by decide)⟩

/-! ## C6 and C10: the retry driver -/

theorem getDataLoop_all_none (exchange : ℕ → Option Data)
    (h : ∀ i, exchange i = none) : ∀ n i, getDataLoop exchange i n = (none, n) := by
  intro n
  induction n with
  | zero => intro i; rfl
  | succ k ih =>
    intro i
    simp only [getDataLoop, h i, ih (i + 1)]

theorem getDataLoop_first_success (exchange : ℕ → Option Data) (d : Data) :
    ∀ n i k, k < n → (∀ j, j < k → exchange (i + j) = none) →
      exchange (i + k) = some d → getDataLoop exchange i n = (some d, k + 1) := by
  intro n
  induction n with
  | zero => intro i k hk; omega
  | succ m ih =>
    intro i k hk hfail hsucc
    cases k with
    | zero =>
      simp only [getDataLoop]
      rw [show i + 0 = i from rfl] at hsucc
      rw [hsucc]
    | succ k' =>
      have h0 : exchange i = none := by
        have := hfail 0 (by omega)
        rwa [show i + 0 = i from rfl] at this
      have hrec : getDataLoop exchange (i + 1) m = (some d, k' + 1) := by
        refine ih (i + 1) k' (by omega) (fun j hj => ?_) ?_
        · have := hfail (j + 1) (by omega)
          rwa [show i + (j + 1) = i + 1 + j by omega] at this
        · rwa [show i + (k' + 1) = i + 1 + k' by omega] at hsucc
      simp only [getDataLoop, h0, hrec]

/-- C6: when every attempt fails, `GetData` performs exactly
`retries.toNat = maxAttempts` attempts and returns the aggregate failure;
when attempt `k` is the first success, its snapshot is returned after
exactly `k+1` attempts and no later attempt is made. -/
theorem C6_retry_exhaustion :
    ∀ (retries : ℤ) (exchange : ℕ → Option Data), 1 ≤ retries →
      ((∀ i, exchange i = none) → GetData retries exchange = (none, retries.toNat)) ∧
      (∀ (k : ℕ) (d : Data), (k : ℤ) < retries → (∀ j, j < k → exchange j = none) →
        exchange k = some d → GetData retries exchange = (some d, k + 1)) := by
  intro retries exchange _
  constructor
  · intro h
    rw [GetData]
    exact getDataLoop_all_none exchange h retries.toNat 0
  · intro k d hk hfail hsucc
    rw [GetData]
    refine getDataLoop_first_success exchange d retries.toNat 0 k (by omega)
      (fun j hj => ?_) ?_
    · rw [show 0 + j = j from by omega]
      exact hfail j hj
    · rwa [show 0 + k = k from by omega]

/-- Witness for C6: with three always-failing attempts, `GetData 3`
returns the aggregate failure after exactly three attempts; with a
stream succeeding at attempt 1, `GetData 3` returns that snapshot after
two attempts. -/
theorem C6_retry_exhaustion_witness :
    GetData 3 (fun _ => none) = (none, (3 : ℤ).toNat) ∧
    GetData 3 (fun i => if i = 1 then some zeroData else none) = (some zeroData, 2) := by
  constructor
  · exact (C6_retry_exhaustion 3 (fun _ => none) (by norm_num)).1 (fun _ => rfl)
  · exact (C6_retry_exhaustion 3 (fun i => if i = 1 then some zeroData else none)
      (by norm_num)).2 1 zeroData (by norm_num)
      (fun j hj => by have hj0 : j = 0 := by omega
                      subst hj0
                      rfl) (by rfl)

/-- C10: with a non-positive retry budget the loop body never runs —
zero exchange attempts are performed — and the aggregate failure is
returned immediately. -/
theorem C10_nonpositive_retries :
    ∀ (retries : ℤ), retries ≤ 0 → ∀ exchange : ℕ → Option Data,
      GetData retries exchange = (none, 0) := by
  intro retries h exchange
  rw [GetData, Int.toNat_of_nonpos h]
  rfl

/-- Witness for C10: with `retries = -1` and a stream that would succeed
immediately, no attempt is made and the aggregate failure is returned. -/
theorem C10_nonpositive_retries_witness :
    GetData (-1) (fun _ => some zeroData) = (none, 0) :=
  C10_nonpositive_retries (-1) (by norm_num) (fun _ => some zeroData)

end goodwe
